import Mathlib

/-!
# Verification of the system-telemetry snapshot endpoint

Shallow embedding of `src/pages/api/stats.json.ts` (first variant, lines
1–189; the second near-duplicate variant shares every formula the claims
touch).  JavaScript numbers are modelled as exact rationals extended with
the non-finite values `NaN`/`±Infinity`; `Math.round` and `toFixed` both
round half-up, matching Mathlib's `round` on `ℚ`.  Float64 rounding error
is idealised away (all byte counts and percentages of interest are exactly
representable).  The pseudo-filesystem, the OS interface and the external
`termux-battery-status` helper are inputs collected in an `Env` record.
-/

/-- A JavaScript number: an exact rational, or one of the non-finite
values.  `JSON.stringify` renders every non-finite value as `null`. -/
inductive JsNum where
  | nan : JsNum
  | posInf : JsNum
  | negInf : JsNum
  | num : ℚ → JsNum
deriving DecidableEq, Repr

/-- A JavaScript value slot that may also hold `undefined` or `null`
(JS distinguishes the two: `JSON.stringify` omits object keys whose value
is `undefined` but keeps `null`). -/
inductive JsOpt (α : Type) where
  | undef : JsOpt α
  | null : JsOpt α
  | val : α → JsOpt α
deriving DecidableEq, Repr

/-- Whether `cs` is a prefix of `ds` (character lists). -/
def hasPrefixChars : List Char → List Char → Bool
  | [], _ => true
  | _ :: _, [] => false
  | a :: as, b :: bs => a == b && hasPrefixChars as bs

/-- JS `s.trim()`: strip leading and trailing whitespace (structural
implementation, so proofs can evaluate it). -/
def trimJs (s : String) : String :=
  String.mk (((s.toList.dropWhile Char.isWhitespace).reverse.dropWhile
    Char.isWhitespace).reverse)

/-- JS `s.toLowerCase()` on the ASCII strings the probes compare. -/
def toLowerJs (s : String) : String :=
  String.mk (s.toList.map Char.toLower)

/-- Split on a separator character, the line decomposition the `/m` regex
flag induces (`"a\nb\n"` has lines `a`, `b` and `""`). -/
def splitOnCharAux (sep : Char) : List Char → List Char → List String
  | [], acc => [String.mk acc.reverse]
  | c :: cs, acc =>
    if c == sep then String.mk acc.reverse :: splitOnCharAux sep cs []
    else splitOnCharAux sep cs (c :: acc)

/-- The list of `sep`-separated fields of `s`. -/
def splitOnChar (sep : Char) (s : String) : List String :=
  splitOnCharAux sep s.toList []

/-- JS `Math.round` on an exact rational: `⌊q + 1/2⌋`, computed directly
on the reduced fraction so the kernel can evaluate it
(`jsRound_eq_round` below identifies it with Mathlib's `round`). -/
def jsRound (q : ℚ) : Int :=
  (2 * q.num + q.den) / (2 * q.den)

/-- Numeric value of a list of decimal digit characters. -/
def digitsToNat : List Char → Nat
  | [] => 0
  | c :: cs => digitsToNat cs + c.toNat.sub 48 * 10 ^ cs.length

/-- JS `parseInt(s)` restricted to decimal inputs: skip leading
whitespace, read an optional sign, then the longest prefix of decimal
digits; `NaN` when that prefix is empty.  (The `0x` hex auto-detection of
`parseInt` is not modelled: no thermal or battery pseudo-file emits hex.)
`parseInt` never throws. -/
def parseIntJs (s : String) : JsNum :=
  let cs := s.toList.dropWhile Char.isWhitespace
  let signed : Int × List Char :=
    match cs with
    | '-' :: r => (-1, r)
    | '+' :: r => (1, r)
    | r => (1, r)
  let ds := signed.2.takeWhile Char.isDigit
  if ds.isEmpty then JsNum.nan
  else JsNum.num ((signed.1 * digitsToNat ds : Int) : ℚ)

/-- The two decimal digits of `k % 100`, zero padded: the fractional part
`toFixed(2)` prints. -/
def twoDigits (k : Nat) : String :=
  String.mk [Char.ofNat (48 + k / 10 % 10), Char.ofNat (48 + k % 10)]

/-- JS `x.toFixed(2)` on an exact rational: ECMAScript picks the integer
`n` minimising `|n / 100 − x|`, larger `n` on ties, i.e. `round (x*100)`
rounding half-up.  (Signed-zero rendering `"-0.00"` is not modelled; every
value formatted by this endpoint is non-negative.) -/
def toFixed2 (q : ℚ) : String :=
  let n : Int := jsRound (q * 100)
  let sign := if n < 0 then "-" else ""
  sign ++ toString (n.natAbs / 100) ++ "." ++ twoDigits (n.natAbs % 100)

/-- JS `x.toFixed(0)`: nearest integer, half-up. -/
def toFixed0 (q : ℚ) : String :=
  toString (jsRound q)

/-- JSON value tree, the image of `JSON.stringify`.  Object key order is
insertion order, as `stringify` preserves it. -/
inductive JVal where
  | jnull : JVal
  | jbool : Bool → JVal
  | jnum : ℚ → JVal
  | jstr : String → JVal
  | jarr : List JVal → JVal
  | jobj : List (String × JVal) → JVal

/-- Look a key up in a JSON object (first binding wins). -/
def JVal.get? : JVal → String → Option JVal
  | .jobj kvs, k => (kvs.find? (fun kv => kv.1 == k)).map (fun kv => kv.2)
  | _, _ => none

/-- How `JSON.stringify` renders a JS number: non-finite values become
`null`. -/
def JsNum.toJson : JsNum → JVal
  | .nan => .jnull
  | .posInf => .jnull
  | .negInf => .jnull
  | .num q => .jnum q

/-- Serialize one object entry holding a `JsOpt` value: a key whose value
is `undefined` is omitted by `JSON.stringify`; `null` is kept. -/
def jsOptEntry {α : Type} (key : String) (f : α → JVal) : JsOpt α → List (String × JVal)
  | .undef => []
  | .null => [(key, .jnull)]
  | .val a => [(key, f a)]

/-- Parsed output of the `termux-battery-status` helper, as the probe
reads it: the `percentage`, `level` and `status` properties of the value
`JSON.parse` produced.  An entry is `none` when the key is absent; a key
explicitly set to JSON `null` behaves identically under `??` and `===`
and is also modelled as `none`. -/
structure BatteryJson where
  percentage : Option ℚ
  level : Option ℚ
  status : Option String
deriving DecidableEq, Repr

/-- The environment one request observes: pseudo-filesystem contents, the
battery helper, and the OS interface.  `fs path = none` models
`fs.readFileSync(path)` throwing; `termuxBattery = none` models the
helper being absent, timing out, or emitting output `JSON.parse` (or the
subsequent property access) throws on — all of which land in the same
`catch`. -/
structure Env where
  fs : String → Option String
  termuxBattery : Option BatteryJson
  osCpus : List String
  totalmem : ℕ
  freemem : ℕ
  load1 : ℚ
  load5 : ℚ
  load15 : ℚ
  uptime : ℚ
  platform : String
  arch : String
  hostname : String
  nowIso : String

/-- Function `formatBytes` (stats.json.ts:7-12): `bytes / 2^30`, rendered with 2
decimals and a `" GB"` suffix when at least 1, else `bytes / 2^20`
rendered as a whole number with an `" MB"` suffix. -/
def formatBytes (bytes : ℚ) : String :=
  let gb := bytes / (1024 * 1024 * 1024)
  if gb ≥ 1 then toFixed2 gb ++ " GB"
  else
    let mb := bytes / (1024 * 1024)
    toFixed0 mb ++ " MB"

/-- Truncation toward zero, JS `Math.trunc` / the integer part `%` uses. -/
def jsTrunc (q : ℚ) : Int :=
  if q < 0 then ⌈q⌉ else ⌊q⌋

/-- JS `a % b` on numbers (sign follows the dividend). -/
def jsFmod (a b : ℚ) : ℚ :=
  a - b * jsTrunc (a / b)

/-- Function `formatUptime` (stats.json.ts:15-26): whole days/hours/minutes, only
non-zero units, joined by single spaces; `"< 1m"` when all are zero
(the `|| '< 1m'` on the empty joined string). -/
def formatUptime (seconds : ℚ) : String :=
  let days : Int := ⌊seconds / 86400⌋
  let hours : Int := ⌊jsFmod seconds 86400 / 3600⌋
  let minutes : Int := ⌊jsFmod seconds 3600 / 60⌋
  let parts : List String :=
    (if days > 0 then [toString days ++ "d"] else []) ++
    (if hours > 0 then [toString hours ++ "h"] else []) ++
    (if minutes > 0 then [toString minutes ++ "m"] else [])
  let joined := String.intercalate " " parts
  if joined = "" then "< 1m" else joined

/-- One line matches `/^processor\s*:/` : the literal `processor`, then
whitespace, then a colon. -/
def procLineMatch (l : String) : Bool :=
  hasPrefixChars "processor".toList l.toList &&
    match (l.toList.drop 9).dropWhile Char.isWhitespace with
    | ':' :: _ => true
    | _ => false

/-- Number of `/^processor\s*:/gm` matches in `/proc/cpuinfo` content
(`^...$` anchors with the `m` flag work per line). -/
def countProcessorLines (s : String) : Nat :=
  ((splitOnChar '\n' s).filter procLineMatch).length

def cpuinfoPath : String := "/proc/cpuinfo"

/-- The fallback after the `/proc/cpuinfo` attempt (stats.json.ts:38-43):
`os.cpus()` length when non-empty, else the fixed Pixel 7 default of 8. -/
def cpuFallbackCount (env : Env) : Nat :=
  if env.osCpus.length > 0 then env.osCpus.length else 8

/-- Function `getCpuCoreCount` (stats.json.ts:29-44): count `processor:` lines of
`/proc/cpuinfo`; on read failure or zero matches fall through to
`cpuFallbackCount`. -/
def getCpuCoreCount (env : Env) : Nat :=
  match env.fs cpuinfoPath with
  | some cpuinfo =>
    let n := countProcessorLines cpuinfo
    if n > 0 then n else cpuFallbackCount env
  | none => cpuFallbackCount env

/-- One line against `/^label\s*:\s*(.+)$/`: returns the captured group
`.trim()`med.  A line whose remainder after the colon is empty does not
match (`(.+)` needs at least one character); when the remainder is all
whitespace, backtracking leaves a whitespace capture whose trim is `""`,
which `String.trim` of the remainder also yields. -/
def labelCapture (label : String) (l : String) : Option String :=
  if hasPrefixChars label.toList l.toList then
    match (l.toList.drop label.length).dropWhile Char.isWhitespace with
    | ':' :: rest => if rest.isEmpty then none else some (trimJs (String.mk rest))
    | _ => none
  else none

/-- First line of `content` matching `/^label\s*:\s*(.+)$/m`, captured
group trimmed. -/
def firstLabelLine (label : String) (content : String) : Option String :=
  ((splitOnChar '\n' content).filterMap (labelCapture label)).head?

/-- The `cpus[0]?.model` truthy check then the fixed default
(stats.json.ts:59-62). -/
def osFallbackModel (env : Env) : String :=
  match env.osCpus.head? with
  | some m => if m ≠ "" then m else "Google Tensor G2"
  | none => "Google Tensor G2"

/-- Function `getCpuModel` (stats.json.ts:47-63): `Hardware:` line of
`/proc/cpuinfo` first, then `model name:`, then `os.cpus()`, then the
fixed label. -/
def getCpuModel (env : Env) : String :=
  match env.fs cpuinfoPath with
  | some cpuinfo =>
    match firstLabelLine "Hardware" cpuinfo with
    | some h => h
    | none =>
      match firstLabelLine "model name" cpuinfo with
      | some m => m
      | none => osFallbackModel env
  | none => osFallbackModel env

/-- The ordered thermal-zone candidate paths (stats.json.ts:67-70). -/
def thermalPaths : List String :=
  ["/sys/class/thermal/thermal_zone0/temp",
   "/sys/devices/virtual/thermal/thermal_zone0/temp"]

/-- The millidegree heuristic (stats.json.ts:76):
`temp > 1000 ? temp / 1000 : temp`.  A `NaN` comparison is false, so
`NaN` passes through unchanged. -/
def interpTemp : JsNum → JsNum
  | JsNum.nan => JsNum.nan
  | JsNum.posInf => JsNum.posInf
  | JsNum.negInf => JsNum.negInf
  | JsNum.num t => if t > 1000 then JsNum.num (t / 1000) else JsNum.num t

/-- The `for...try` loop of `getCpuTemperature`: the first readable path
returns (even when the content parses to `NaN` — `parseInt` does not
throw); an unreadable path continues to the next. -/
def tryThermalPaths (fsRead : String → Option String) : List String → Option JsNum
  | [] => none
  | p :: rest =>
    match fsRead p with
    | some content => some (interpTemp (parseIntJs (trimJs content)))
    | none => tryThermalPaths fsRead rest

/-- Function `getCpuTemperature` (stats.json.ts:66-82): `number | null`. -/
def getCpuTemperature (env : Env) : Option JsNum :=
  tryThermalPaths env.fs thermalPaths

/-- The battery result `{ level, charging }` (stats.json.ts:85): the
declared type is `number | null` / `boolean | null`, but the helper path
can leave `level` `undefined` (see `getBatteryInfo`). -/
structure BatteryInfo where
  level : JsOpt JsNum
  charging : JsOpt Bool
deriving DecidableEq, Repr

/-- The `timeout` option passed to `execSync('termux-battery-status')`
(stats.json.ts:92), in milliseconds. -/
def termuxBatteryTimeoutMs : Nat := 3000

/-- The ordered battery capacity candidate paths (stats.json.ts:105-108). -/
def batteryPaths : List String :=
  ["/sys/class/power_supply/battery/capacity",
   "/sys/class/power_supply/BAT0/capacity"]

/-- The ordered battery status candidate paths (stats.json.ts:110-113). -/
def statusPaths : List String :=
  ["/sys/class/power_supply/battery/status",
   "/sys/class/power_supply/BAT0/status"]

/-- The capacity `for...try` loop (stats.json.ts:115-120): first readable
path assigns `parseInt` of the content and breaks; exhaustion leaves the
initial `null`. -/
def tryLevelPaths (fsRead : String → Option String) : List String → JsOpt JsNum
  | [] => JsOpt.null
  | p :: rest =>
    match fsRead p with
    | some content => JsOpt.val (parseIntJs (trimJs content))
    | none => tryLevelPaths fsRead rest

/-- The status `for...try` loop (stats.json.ts:122-128): first readable
path assigns the case-insensitive `charging`/`full` test and breaks;
exhaustion leaves the initial `null`. -/
def tryStatusPaths (fsRead : String → Option String) : List String → JsOpt Bool
  | [] => JsOpt.null
  | p :: rest =>
    match fsRead p with
    | some content =>
      let status := toLowerJs (trimJs content)
      JsOpt.val (status == "charging" || status == "full")
    | none => tryStatusPaths fsRead rest

/-- Function `getBatteryInfo` (stats.json.ts:85-131).  Helper success returns
immediately: `level = batteryData.percentage ?? batteryData.level`
(`undefined` when both are missing) and
`charging = batteryData.status === 'CHARGING' || batteryData.status === 'FULL'`
(a plain boolean, `false` when `status` is missing).  Helper failure falls
through to the filesystem loops. -/
def getBatteryInfo (env : Env) : BatteryInfo :=
  match env.termuxBattery with
  | some batteryData =>
    let level : JsOpt JsNum :=
      match batteryData.percentage with
      | some p => JsOpt.val (JsNum.num p)
      | none =>
        match batteryData.level with
        | some l => JsOpt.val (JsNum.num l)
        | none => JsOpt.undef
    let charging : JsOpt Bool :=
      JsOpt.val (batteryData.status == some "CHARGING" ||
                 batteryData.status == some "FULL")
    { level := level, charging := charging }
  | none =>
    { level := tryLevelPaths env.fs batteryPaths,
      charging := tryStatusPaths env.fs statusPaths }

/-- Expression `Math.round((usedMem / totalMem) * 100)` (stats.json.ts:136-137) with
JS semantics at `totalMem = 0`: `0/0` is `NaN` and `(0 - free)/0` is
`-Infinity`; for positive totals the computation is exact. -/
def memUsagePercentJs (total free : ℕ) : JsNum :=
  if total = 0 then
    if free = 0 then JsNum.nan else JsNum.negInf
  else
    JsNum.num (jsRound ((((total : ℚ) - free) / total) * 100) : ℚ)

/-- Expression `Math.min(100, Math.round((loadAvg[0] / cpuCount) * 100))`
(stats.json.ts:149; the identical formula appears in the second variant at
line 272). -/
def cpuUsagePercent (load : ℚ) (count : ℕ) : Int :=
  min 100 (jsRound (load / count * 100))

/-- The serialized `battery` entry of the snapshot: `JSON.stringify`
omits the `level` key when it is `undefined`. -/
def batteryJson (b : BatteryInfo) : JVal :=
  JVal.jobj (jsOptEntry "level" JsNum.toJson b.level ++
             jsOptEntry "charging" JVal.jbool b.charging)

/-- The serialized `cpu.temperature` entry: `null` when the probe found
no readable path, else the probe's number (`NaN` serializing to `null`). -/
def temperatureJson : Option JsNum → JVal
  | none => JVal.jnull
  | some t => t.toJson

/-- The HTTP response the route handler builds (stats.json.ts:182-188):
`body` is the `JSON.stringify(stats)` value tree. -/
structure HttpResponse where
  status : Nat
  contentType : String
  cacheControl : String
  body : JVal

/-- The `GET` route handler (stats.json.ts:133-189), assembling the
snapshot from every probe and serializing it with status 200. -/
def GET (env : Env) : HttpResponse :=
  let totalMem := env.totalmem
  let freeMem := env.freemem
  let usedMem : Int := (totalMem : Int) - (freeMem : Int)
  let memUsagePercent := memUsagePercentJs totalMem freeMem
  let cpuCount := getCpuCoreCount env
  let cpuModel := getCpuModel env
  let cpuUsage := cpuUsagePercent env.load1 cpuCount
  let cpuTemp := getCpuTemperature env
  let battery := getBatteryInfo env
  { status := 200
    contentType := "application/json"
    cacheControl := "no-cache, no-store, must-revalidate"
    body := JVal.jobj
      [("device", JVal.jobj
          [("name", JVal.jstr "Pixel 7"),
           ("platform", JVal.jstr env.platform),
           ("arch", JVal.jstr env.arch),
           ("hostname", JVal.jstr env.hostname)]),
       ("memory", JVal.jobj
          [("total", JVal.jstr (formatBytes (totalMem : ℚ))),
           ("used", JVal.jstr (formatBytes (usedMem : ℚ))),
           ("free", JVal.jstr (formatBytes (freeMem : ℚ))),
           ("usagePercent", memUsagePercent.toJson)]),
       ("cpu", JVal.jobj
          [("model", JVal.jstr cpuModel),
           ("cores", JVal.jnum (cpuCount : ℚ)),
           ("usagePercent", JVal.jnum (cpuUsage : ℚ)),
           ("loadAvg", JVal.jarr
              [JVal.jstr (toFixed2 env.load1),
               JVal.jstr (toFixed2 env.load5),
               JVal.jstr (toFixed2 env.load15)]),
           ("temperature", temperatureJson cpuTemp)]),
       ("system", JVal.jobj
          [("uptime", JVal.jstr (formatUptime env.uptime)),
           ("uptimeSeconds", JVal.jnum ((⌊env.uptime⌋ : Int) : ℚ))]),
       ("battery", batteryJson battery),
       ("timestamp", JVal.jstr env.nowIso)] }

/-! ## Concrete environments for witnesses and counterexamples -/

/-- A host where every pseudo-file read throws, the battery helper is
unavailable and `os.cpus()` is empty — every optional sensor entirely
absent. -/
def envBare : Env :=
  { fs := fun _ => none
    termuxBattery := none
    osCpus := []
    totalmem := 2 ^ 31
    freemem := 2 ^ 30
    load1 := 1 / 2
    load5 := 1
    load15 := 2
    uptime := 90000
    platform := "android"
    arch := "arm64"
    hostname := "localhost"
    nowIso := "2026-01-01T00:00:00.000Z" }

/-- Environment `envBare` with a readable first thermal zone whose content does not
parse as a number. -/
def envThermalGarbage : Env :=
  { envBare with
    fs := fun p =>
      if p = "/sys/class/thermal/thermal_zone0/temp" then some "garbage"
      else none }

/-- Environment `envBare` with a first thermal zone reporting millidegrees. -/
def envThermal45000 : Env :=
  { envBare with
    fs := fun p =>
      if p = "/sys/class/thermal/thermal_zone0/temp" then some "45000"
      else none }

/-- Environment `envBare` with a first thermal zone reporting whole degrees. -/
def envThermal45 : Env :=
  { envBare with
    fs := fun p =>
      if p = "/sys/class/thermal/thermal_zone0/temp" then some "45"
      else none }

/-- Environment `envBare` with a battery helper that succeeds but emits JSON carrying
neither a `percentage` nor a `level` key. -/
def envHelperNoLevel : Env :=
  { envBare with
    termuxBattery := some { percentage := none, level := none, status := some "DISCHARGING" } }

/-- Environment `envBare` with a readable `/proc/cpuinfo` that contains no
`processor:` line (and an empty `os.cpus()` list). -/
def envCpuinfoNoProcessor : Env :=
  { envBare with
    fs := fun p => if p = "/proc/cpuinfo" then some "Hardware\t: Tensor" else none }

/-! ## Helper lemmas -/

/-- The executable rounding agrees with Mathlib's `round`. -/
lemma jsRound_eq_round (q : ℚ) : jsRound q = round q := by
  rw [round_eq]
  unfold jsRound
  have hden : (0:ℚ) < (q.den : ℚ) := by exact_mod_cast q.pos
  have key : (q.num : ℚ) = q * (q.den : ℚ) :=
    calc (q.num : ℚ) = (q.num : ℚ) / (q.den : ℚ) * (q.den : ℚ) :=
          (div_mul_cancel₀ _ hden.ne').symm
    _ = q * (q.den : ℚ) := by rw [Rat.num_div_den q]
  have harg : q + 1 / 2 =
      (((2 * q.num + q.den : ℤ) : ℚ)) / (((2 * q.den : ℕ) : ℚ)) := by
    rw [eq_div_iff (by push_cast; positivity)]
    push_cast
    rw [key]
    ring
  rw [harg, Rat.floor_intCast_div_natCast]
  norm_cast

/-- Rounding on `ℚ` is monotone (it is a floor of a shifted argument). -/
lemma round_mono_rat {x y : ℚ} (h : x ≤ y) : round x ≤ round y := by
  rw [round_eq, round_eq]
  exact Int.floor_le_floor (by linarith)

lemma round_nonneg_rat {x : ℚ} (h : 0 ≤ x) : 0 ≤ round x := by
  have := round_mono_rat h
  simpa using this

lemma round_le_hundred_rat {x : ℚ} (h : x ≤ 100) : round x ≤ 100 := by
  have := round_mono_rat h
  simpa using this

/-- The core count is always positive: every arm of the fallback chain
yields a positive number. -/
lemma getCpuCoreCount_pos (env : Env) : 0 < getCpuCoreCount env := by
  unfold getCpuCoreCount cpuFallbackCount
  cases h : env.fs cpuinfoPath <;> simp only []
  · split <;> omega
  · split
    · omega
    · split <;> omega

/-- The capacity loop reads only the listed paths. -/
lemma tryLevelPaths_congr (f g : String → Option String) (ps : List String)
    (h : ∀ p ∈ ps, f p = g p) : tryLevelPaths f ps = tryLevelPaths g ps := by
  induction ps with
  | nil => rfl
  | cons p rest ih =>
    have hp := h p (by simp)
    have hrest : ∀ q ∈ rest, f q = g q := fun q hq => h q (by simp [hq])
    unfold tryLevelPaths
    rw [hp]
    cases g p with
    | some c => rfl
    | none => exact ih hrest

/-- The status loop reads only the listed paths. -/
lemma tryStatusPaths_congr (f g : String → Option String) (ps : List String)
    (h : ∀ p ∈ ps, f p = g p) : tryStatusPaths f ps = tryStatusPaths g ps := by
  induction ps with
  | nil => rfl
  | cons p rest ih =>
    have hp := h p (by simp)
    have hrest : ∀ q ∈ rest, f q = g q := fun q hq => h q (by simp [hq])
    unfold tryStatusPaths
    rw [hp]
    cases g p with
    | some c => rfl
    | none => exact ih hrest

/-- At 2^30 bytes and above, `formatBytes` takes the gibibyte branch. -/
lemma formatBytes_gb (b : ℚ) (hb : (2:ℚ)^30 ≤ b) :
    formatBytes b = toFixed2 (b / 2^30) ++ " GB" := by
  have h30 : (0:ℚ) < (1024 * 1024 * 1024 : ℚ) := by norm_num
  have hge : b / (1024 * 1024 * 1024 : ℚ) ≥ 1 := by
    rw [ge_iff_le, le_div_iff₀ h30, one_mul]
    calc (1024 * 1024 * 1024 : ℚ) = 2^30 := by norm_num
    _ ≤ b := hb
  simp only [formatBytes]
  rw [if_pos hge]
  norm_num

/-- Below 2^30 bytes, `formatBytes` takes the whole-mebibyte branch. -/
lemma formatBytes_mb (b : ℚ) (_hb0 : 0 ≤ b) (hb : b < 2^30) :
    formatBytes b = toString (round (b / 2^20)) ++ " MB" := by
  have h30 : (0:ℚ) < (1024 * 1024 * 1024 : ℚ) := by norm_num
  have hlt : b / (1024 * 1024 * 1024 : ℚ) < 1 := by
    rw [div_lt_one h30]
    calc b < 2^30 := hb
    _ = (1024 * 1024 * 1024 : ℚ) := by norm_num
  simp only [formatBytes]
  rw [if_neg (not_le.mpr hlt)]
  simp only [toFixed0]
  rw [jsRound_eq_round]
  norm_num

/-- Applying `toFixed2` to a non-negative rational is an integer part, a dot and
exactly two decimal digits. -/
lemma toFixed2_shape (q : ℚ) (hq : 0 ≤ q) :
    ∃ frac : String, frac.length = 2 ∧
      toFixed2 q = toString ((round (q * 100)).toNat / 100) ++ "." ++ frac := by
  have hn : (0:ℤ) ≤ round (q * 100) := round_nonneg_rat (by positivity)
  refine ⟨twoDigits ((round (q * 100)).toNat % 100), rfl, ?_⟩
  simp only [toFixed2]
  rw [jsRound_eq_round]
  rw [if_neg (by omega)]
  have habs : (round (q * 100)).natAbs = (round (q * 100)).toNat := by omega
  rw [habs]
  rfl

/-! ## Claims -/

/-- C1: for every environment state — any combination of probe successes
and failures, including temperature and battery being entirely
unavailable — the GET handler returns HTTP status 200 and a body whose
top-level keys are exactly `device, memory, cpu, system, battery,
timestamp`, each carrying a value; the key set never varies with probe
outcomes. -/
theorem c1_get_always_200_with_fixed_toplevel_keys (env : Env) :
    (GET env).status = 200 ∧
    ∃ vdevice vmemory vcpu vsystem vbattery vtimestamp : JVal,
      (GET env).body = JVal.jobj
        [("device", vdevice), ("memory", vmemory), ("cpu", vcpu),
         ("system", vsystem), ("battery", vbattery), ("timestamp", vtimestamp)] :=
  ⟨rfl, _, _, _, _, _, _, rfl⟩

/-- C3: with the helper unavailable (absent, timed out after its 3000 ms
bound, or with unparseable output — all modelled by
`termuxBattery = none`) the probe falls back to the candidate pseudo-file
paths; when every candidate path is also unreadable both fields are the
explicit `null` marker.  The probe is a total function, so no error is
raised on any path. -/
theorem c3_battery_fallback_to_files_then_null (env : Env)
    (hHelper : env.termuxBattery = none) :
    getBatteryInfo env =
      { level := tryLevelPaths env.fs batteryPaths,
        charging := tryStatusPaths env.fs statusPaths } ∧
    termuxBatteryTimeoutMs = 3000 ∧
    (env.fs "/sys/class/power_supply/battery/capacity" = none →
     env.fs "/sys/class/power_supply/BAT0/capacity" = none →
     env.fs "/sys/class/power_supply/battery/status" = none →
     env.fs "/sys/class/power_supply/BAT0/status" = none →
     getBatteryInfo env = { level := JsOpt.null, charging := JsOpt.null }) := by
  refine ⟨?_, rfl, ?_⟩
  · unfold getBatteryInfo
    rw [hHelper]
  · intro h1 h2 h3 h4
    unfold getBatteryInfo
    rw [hHelper]
    simp [batteryPaths, statusPaths, tryLevelPaths, tryStatusPaths, h1, h2, h3, h4]

/-- Witness for C3 at a host with no helper and no readable battery
files. -/
theorem c3_witness :
    getBatteryInfo envBare =
      { level := tryLevelPaths envBare.fs batteryPaths,
        charging := tryStatusPaths envBare.fs statusPaths } ∧
    termuxBatteryTimeoutMs = 3000 ∧
    getBatteryInfo envBare = { level := JsOpt.null, charging := JsOpt.null } := by
  have h := c3_battery_fallback_to_files_then_null envBare rfl
  exact ⟨h.1, h.2.1, h.2.2 rfl rfl rfl rfl⟩

/-- C6: the temperature probe returns the value parsed from the first
readable candidate thermal path, divided by 1000 exactly when the parsed
value exceeds 1000, and `null` (= `none`) when every candidate is
unreadable; raw `45000` yields `45` and raw `45` yields `45`. -/
theorem c6_temperature_first_readable_millidegree_heuristic :
    (∀ (env : Env) (c : String) (n : ℚ),
       env.fs "/sys/class/thermal/thermal_zone0/temp" = some c →
       parseIntJs (trimJs c) = JsNum.num n →
       getCpuTemperature env =
         some (JsNum.num (if n > 1000 then n / 1000 else n))) ∧
    (∀ (env : Env) (c : String) (n : ℚ),
       env.fs "/sys/class/thermal/thermal_zone0/temp" = none →
       env.fs "/sys/devices/virtual/thermal/thermal_zone0/temp" = some c →
       parseIntJs (trimJs c) = JsNum.num n →
       getCpuTemperature env =
         some (JsNum.num (if n > 1000 then n / 1000 else n))) ∧
    (∀ env : Env,
       env.fs "/sys/class/thermal/thermal_zone0/temp" = none →
       env.fs "/sys/devices/virtual/thermal/thermal_zone0/temp" = none →
       getCpuTemperature env = none) ∧
    getCpuTemperature envThermal45000 = some (JsNum.num 45) ∧
    getCpuTemperature envThermal45 = some (JsNum.num 45) ∧
    getCpuTemperature envBare = none := by
  have h45000 : getCpuTemperature envThermal45000 =
      some (interpTemp (JsNum.num ((45000 : ℤ) : ℚ))) := rfl
  have h45 : getCpuTemperature envThermal45 =
      some (interpTemp (JsNum.num ((45 : ℤ) : ℚ))) := rfl
  refine ⟨?_, ?_, ?_, ?_, ?_, rfl⟩
  · intro env c n h hp
    simp only [getCpuTemperature, thermalPaths, tryThermalPaths, h, hp, interpTemp]
    split <;> simp
  · intro env c n h0 h1 hp
    simp only [getCpuTemperature, thermalPaths, tryThermalPaths, h0, h1, hp, interpTemp]
    split <;> simp
  · intro env h0 h1
    simp only [getCpuTemperature, thermalPaths, tryThermalPaths, h0, h1]
  · rw [h45000]; norm_num [interpTemp]
  · rw [h45]; norm_num [interpTemp]

/-- Witness for C6 at concrete environments. -/
theorem c6_witness :
    getCpuTemperature envThermal45000 =
      some (JsNum.num (if ((45000 : ℤ) : ℚ) > 1000
        then ((45000 : ℤ) : ℚ) / 1000 else ((45000 : ℤ) : ℚ))) ∧
    getCpuTemperature envBare = none := by
  have h1 := (c6_temperature_first_readable_millidegree_heuristic.1)
    envThermal45000 "45000" (((45000 : ℤ) : ℚ)) rfl rfl
  have h3 := (c6_temperature_first_readable_millidegree_heuristic.2.2.1)
    envBare rfl rfl
  exact ⟨h1, h3⟩

/-- C8: the core-count probe is total (always a positive, usable value,
never an error — it is a Lean function, so totality is by construction)
and follows the fallback order: unreadable pseudo-file or zero
`processor:` matches fall through to the OS descriptor-list length, and
the fixed default 8 is used only when that list is also empty. -/
theorem c8_core_count_total_fallback_chain :
    (∀ env : Env, 0 < getCpuCoreCount env) ∧
    (∀ (env : Env) (c : String), env.fs cpuinfoPath = some c →
       0 < countProcessorLines c →
       getCpuCoreCount env = countProcessorLines c) ∧
    (∀ (env : Env) (c : String), env.fs cpuinfoPath = some c →
       countProcessorLines c = 0 →
       getCpuCoreCount env =
         if env.osCpus.length > 0 then env.osCpus.length else 8) ∧
    (∀ env : Env, env.fs cpuinfoPath = none →
       getCpuCoreCount env =
         if env.osCpus.length > 0 then env.osCpus.length else 8) ∧
    (∀ (env : Env) (c : String), env.fs cpuinfoPath = some c →
       countProcessorLines c = 0 → env.osCpus = [] →
       getCpuCoreCount env = 8) := by
  refine ⟨getCpuCoreCount_pos, ?_, ?_, ?_, ?_⟩
  · intro env c h hpos
    simp only [getCpuCoreCount, h]
    rw [if_pos hpos]
  · intro env c h hzero
    simp only [getCpuCoreCount, cpuFallbackCount, h, hzero]
    simp
  · intro env h
    simp only [getCpuCoreCount, cpuFallbackCount, h]
  · intro env c h hzero hcpus
    simp only [getCpuCoreCount, cpuFallbackCount, h, hzero, hcpus]
    simp

/-- Witness for C8: positivity on a bare host, and the chain bottoming
out at the fixed default 8 when `/proc/cpuinfo` has no `processor:` line
and `os.cpus()` is empty. -/
theorem c8_witness :
    0 < getCpuCoreCount envBare ∧ getCpuCoreCount envCpuinfoNoProcessor = 8 := by
  refine ⟨c8_core_count_total_fallback_chain.1 envBare, ?_⟩
  exact c8_core_count_total_fallback_chain.2.2.2.2 envCpuinfoNoProcessor
    "Hardware\t: Tensor" rfl (by decide) rfl

/-- C10: when the helper runs successfully and its parsed JSON has
neither a `percentage` nor a `level` key, the probe returns at once with
`level = undefined` (not the `null` unknown-marker), ignores the
filesystem fallback paths entirely, and the serialized battery object
omits the `level` key. -/
theorem c10_helper_json_without_level_keys (env : Env) (bd : BatteryJson)
    (hHelper : env.termuxBattery = some bd)
    (hp : bd.percentage = none) (hl : bd.level = none) :
    (getBatteryInfo env).level = JsOpt.undef ∧
    (∀ f : String → Option String,
       getBatteryInfo { env with fs := f } = getBatteryInfo env) ∧
    batteryJson (getBatteryInfo env) =
      JVal.jobj [("charging",
        JVal.jbool (bd.status == some "CHARGING" || bd.status == some "FULL"))] ∧
    (batteryJson (getBatteryInfo env)).get? "level" = none ∧
    (GET env).body.get? "battery" = some (batteryJson (getBatteryInfo env)) := by
  have hinfo : getBatteryInfo env =
      { level := JsOpt.undef,
        charging := JsOpt.val (bd.status == some "CHARGING" ||
          bd.status == some "FULL") } := by
    simp only [getBatteryInfo, hHelper, hp, hl]
  refine ⟨by rw [hinfo], ?_, ?_, ?_, rfl⟩
  · intro f
    have hHelper' : ({ env with fs := f } : Env).termuxBattery = some bd := hHelper
    simp only [getBatteryInfo, hHelper, hHelper', hp, hl]
  · rw [hinfo]; rfl
  · rw [hinfo]; rfl

/-- Witness for C10 at a concrete helper output `{"status":"DISCHARGING"}`. -/
theorem c10_witness :
    (getBatteryInfo envHelperNoLevel).level = JsOpt.undef ∧
    (batteryJson (getBatteryInfo envHelperNoLevel)).get? "level" = none := by
  have h := c10_helper_json_without_level_keys envHelperNoLevel
    { percentage := none, level := none, status := some "DISCHARGING" } rfl rfl rfl
  exact ⟨h.1, h.2.2.2.1⟩

/-- C5: for memory pairs with positive total (and, as for every real OS
reading, free ≤ total), the snapshot's `usagePercent` is
`round(100·(total−free)/total)` and lies in [0, 100]. -/
theorem c5_mem_used_percent_formula (env : Env)
    (htotal : 0 < env.totalmem) (hfree : env.freemem ≤ env.totalmem) :
    ∃ p : ℤ,
      memUsagePercentJs env.totalmem env.freemem = JsNum.num (p : ℚ) ∧
      p = round (100 * ((env.totalmem : ℚ) - (env.freemem : ℚ)) / (env.totalmem : ℚ)) ∧
      0 ≤ p ∧ p ≤ 100 ∧
      ((GET env).body.get? "memory").bind (fun v => JVal.get? v "usagePercent") =
        some (JVal.jnum (p : ℚ)) := by
  have ht0 : ¬ env.totalmem = 0 := htotal.ne'
  have htq : (0:ℚ) < (env.totalmem : ℚ) := by exact_mod_cast htotal
  have hfq : ((env.freemem : ℚ)) ≤ (env.totalmem : ℚ) := by exact_mod_cast hfree
  have hmem : memUsagePercentJs env.totalmem env.freemem =
      JsNum.num ((jsRound ((((env.totalmem : ℚ) - env.freemem) / env.totalmem) * 100) : ℤ) : ℚ) := by
    unfold memUsagePercentJs
    rw [if_neg ht0]
  have hq0 : (0:ℚ) ≤ (((env.totalmem : ℚ) - env.freemem) / env.totalmem) * 100 := by
    have h1 : (0:ℚ) ≤ (env.totalmem : ℚ) - env.freemem := by linarith
    have h2 : (0:ℚ) ≤ ((env.totalmem : ℚ) - env.freemem) / env.totalmem :=
      div_nonneg h1 htq.le
    linarith
  have hq100 : (((env.totalmem : ℚ) - env.freemem) / env.totalmem) * 100 ≤ 100 := by
    have h1 : ((env.totalmem : ℚ) - env.freemem) / env.totalmem ≤ 1 := by
      rw [div_le_one htq]; linarith
    nlinarith
  refine ⟨jsRound ((((env.totalmem : ℚ) - env.freemem) / env.totalmem) * 100),
    hmem, ?_, ?_, ?_, ?_⟩
  · rw [jsRound_eq_round]
    congr 1
    ring
  · rw [jsRound_eq_round]
    exact round_nonneg_rat hq0
  · rw [jsRound_eq_round]
    exact round_le_hundred_rat hq100
  · have hlook : ((GET env).body.get? "memory").bind (fun v => JVal.get? v "usagePercent") =
        some ((memUsagePercentJs env.totalmem env.freemem).toJson) := rfl
    rw [hlook, hmem]
    rfl

/-- Witness for C5 at a 2 GiB / 1 GiB host. -/
theorem c5_witness :
    ∃ p : ℤ,
      memUsagePercentJs envBare.totalmem envBare.freemem = JsNum.num (p : ℚ) ∧
      p = round (100 * ((envBare.totalmem : ℚ) - (envBare.freemem : ℚ)) / (envBare.totalmem : ℚ)) ∧
      0 ≤ p ∧ p ≤ 100 ∧
      ((GET envBare).body.get? "memory").bind (fun v => JVal.get? v "usagePercent") =
        some (JVal.jnum (p : ℚ)) :=
  c5_mem_used_percent_formula envBare (by norm_num [envBare]) (by norm_num [envBare])

/-- C7: for every non-negative 1-minute load and positive core count the
snapshot's CPU `usagePercent` equals `clamp(round(load/cores·100), 0, 100)`
and lies in [0, 100]; load 50 on 4 cores yields 100, not 1250. -/
theorem c7_cpu_usage_percent_clamped :
    (∀ (load : ℚ) (count : ℕ), 0 < count → 0 ≤ load →
       cpuUsagePercent load count =
         max 0 (min 100 (round (load / (count : ℚ) * 100))) ∧
       0 ≤ cpuUsagePercent load count ∧ cpuUsagePercent load count ≤ 100) ∧
    cpuUsagePercent 50 4 = 100 ∧
    (∀ env : Env, 0 ≤ env.load1 →
       ((GET env).body.get? "cpu").bind (fun v => JVal.get? v "usagePercent") =
         some (JVal.jnum
           ((max 0 (min 100 (round (env.load1 / (getCpuCoreCount env : ℚ) * 100))) : ℤ) : ℚ))) := by
  have hmain : ∀ (load : ℚ) (count : ℕ), 0 < count → 0 ≤ load →
      cpuUsagePercent load count =
        max 0 (min 100 (round (load / (count : ℚ) * 100))) ∧
      0 ≤ cpuUsagePercent load count ∧ cpuUsagePercent load count ≤ 100 := by
    intro load count hc hl
    have hcq : (0:ℚ) < (count : ℚ) := by exact_mod_cast hc
    have harg : (0:ℚ) ≤ load / (count : ℚ) * 100 := by positivity
    have hr0 : (0:ℤ) ≤ round (load / (count : ℚ) * 100) := round_nonneg_rat harg
    have hmin0 : (0:ℤ) ≤ min 100 (round (load / (count : ℚ) * 100)) :=
      le_min (by norm_num) hr0
    have hval : cpuUsagePercent load count =
        min 100 (round (load / (count : ℚ) * 100)) := by
      unfold cpuUsagePercent
      rw [jsRound_eq_round]
    refine ⟨?_, ?_, ?_⟩
    · rw [hval, max_eq_right hmin0]
    · rw [hval]; exact hmin0
    · rw [hval]; exact min_le_left _ _
  refine ⟨hmain, ?_, ?_⟩
  · unfold cpuUsagePercent
    rw [jsRound_eq_round]
    have harg : ((50:ℚ) / ((4:ℕ) : ℚ) * 100) = ((1250 : ℤ) : ℚ) := by norm_num
    rw [harg, round_intCast]
    norm_num
  · intro env hload
    have hc := getCpuCoreCount_pos env
    have hlook : ((GET env).body.get? "cpu").bind (fun v => JVal.get? v "usagePercent") =
        some (JVal.jnum ((cpuUsagePercent env.load1 (getCpuCoreCount env) : ℤ) : ℚ)) := rfl
    rw [hlook, (hmain env.load1 (getCpuCoreCount env) hc hload).1]

/-- Witness for C7: the clamp at load 50 on 4 cores, through the theorem's
universally quantified part. -/
theorem c7_witness :
    cpuUsagePercent 50 4 = max 0 (min 100 (round ((50:ℚ) / ((4:ℕ) : ℚ) * 100))) ∧
    0 ≤ cpuUsagePercent 50 4 ∧ cpuUsagePercent 50 4 ≤ 100 ∧
    cpuUsagePercent 50 4 = 100 := by
  have h := c7_cpu_usage_percent_clamped.1 50 4 (by norm_num) (by norm_num)
  exact ⟨h.1, h.2.1, h.2.2, c7_cpu_usage_percent_clamped.2.1⟩

/-- C9: inputs of at least 2^30 bytes render as gibibytes with exactly 2
decimal places and a `"GB"` suffix; smaller (non-negative) inputs render
as mebibytes rounded to the nearest whole number with an `"MB"` suffix;
2^30 → "1.00 GB", 2^20 → "1 MB", 2^30 − 1 → "1024 MB". -/
theorem c9_format_bytes_thresholds :
    (∀ b : ℚ, (2:ℚ)^30 ≤ b → formatBytes b = toFixed2 (b / 2^30) ++ " GB") ∧
    (∀ q : ℚ, 0 ≤ q → ∃ frac : String, frac.length = 2 ∧
       toFixed2 q = toString ((round (q * 100)).toNat / 100) ++ "." ++ frac) ∧
    (∀ b : ℚ, 0 ≤ b → b < 2^30 →
       formatBytes b = toString (round (b / 2^20)) ++ " MB") ∧
    formatBytes ((2:ℚ)^30) = "1.00 GB" ∧
    formatBytes ((2:ℚ)^20) = "1 MB" ∧
    formatBytes ((2:ℚ)^30 - 1) = "1024 MB" := by
  have hGB := formatBytes_gb
  have hshape := toFixed2_shape
  have hMB := formatBytes_mb
  refine ⟨hGB, hshape, hMB, ?_, ?_, ?_⟩
  · rw [hGB ((2:ℚ)^30) (le_refl _)]
    have harg : ((2:ℚ)^30 / 2^30) = 1 := by norm_num
    rw [harg]
    simp only [toFixed2]
    rw [jsRound_eq_round]
    have h100 : ((1:ℚ) * 100) = ((100 : ℤ) : ℚ) := by norm_num
    rw [h100, round_intCast]
    decide
  · rw [hMB ((2:ℚ)^20) (by positivity) (by norm_num)]
    have harg : ((2:ℚ)^20 / 2^20) = ((1 : ℤ) : ℚ) := by norm_num
    rw [harg, round_intCast]
    decide
  · rw [hMB ((2:ℚ)^30 - 1) (by norm_num) (by norm_num)]
    have hr : round (((2:ℚ)^30 - 1) / 2^20) = 1024 := by
      rw [round_eq, Int.floor_eq_iff]
      constructor <;> norm_num
    rw [hr]
    decide

/-- Witness for C9: theorem instances at 2^31 bytes (GB branch), 500
bytes (MB branch) and the two-decimal shape at 1. -/
theorem c9_witness :
    formatBytes ((2:ℚ)^31) = toFixed2 ((2:ℚ)^31 / 2^30) ++ " GB" ∧
    formatBytes (500 : ℚ) = toString (round ((500:ℚ) / 2^20)) ++ " MB" ∧
    (∃ frac : String, frac.length = 2 ∧
       toFixed2 (1:ℚ) = toString ((round ((1:ℚ) * 100)).toNat / 100) ++ "." ++ frac) := by
  refine ⟨c9_format_bytes_thresholds.1 ((2:ℚ)^31) (by norm_num),
    c9_format_bytes_thresholds.2.2.1 500 (by norm_num) (by norm_num),
    c9_format_bytes_thresholds.2.1 1 (by norm_num)⟩

/-- C2 counterexample: a readable thermal pseudo-file whose content does
not parse as a number makes the probe return `NaN` — a number value, not
the `null` unknown-marker (`none`) the claim requires: `parseInt` returns
`NaN` without throwing, so the `catch` never fires. -/
theorem c2_counterexample :
    getCpuTemperature envThermalGarbage = some JsNum.nan ∧
    getCpuTemperature envThermalGarbage ≠ none := by
  have h : getCpuTemperature envThermalGarbage = some JsNum.nan := rfl
  exact ⟨h, by rw [h]; simp⟩

/-- C2 amended: file-read and subprocess failures are caught locally and
converted to the `null` marker, and no probe's failure prevents the others
from contributing (the battery result depends only on the helper and the
battery paths, and assembly always completes with every probe's own
result); however a readable-but-unparseable pseudo-file yields `NaN` at
the probe level, which only becomes `null` in the response body through
`JSON.stringify`. -/
theorem c2_amended_probe_failures_localised :
    (∀ env : Env,
       env.fs "/sys/class/thermal/thermal_zone0/temp" = none →
       env.fs "/sys/devices/virtual/thermal/thermal_zone0/temp" = none →
       getCpuTemperature env = none) ∧
    (∀ (env : Env) (c : String),
       env.fs "/sys/class/thermal/thermal_zone0/temp" = some c →
       parseIntJs (trimJs c) = JsNum.nan →
       getCpuTemperature env = some JsNum.nan ∧
       ((GET env).body.get? "cpu").bind (fun v => JVal.get? v "temperature") =
         some JVal.jnull) ∧
    (∀ env₁ env₂ : Env, env₁.termuxBattery = env₂.termuxBattery →
       (∀ p ∈ batteryPaths, env₁.fs p = env₂.fs p) →
       (∀ p ∈ statusPaths, env₁.fs p = env₂.fs p) →
       getBatteryInfo env₁ = getBatteryInfo env₂) ∧
    (∀ env : Env, (GET env).status = 200 ∧
       (GET env).body.get? "battery" = some (batteryJson (getBatteryInfo env))) := by
  refine ⟨?_, ?_, ?_, fun env => ⟨rfl, rfl⟩⟩
  · intro env h0 h1
    simp only [getCpuTemperature, thermalPaths, tryThermalPaths, h0, h1]
  · intro env c h hp
    have hprobe : getCpuTemperature env = some JsNum.nan := by
      simp only [getCpuTemperature, thermalPaths, tryThermalPaths, h, hp, interpTemp]
    refine ⟨hprobe, ?_⟩
    have hlook : ((GET env).body.get? "cpu").bind (fun v => JVal.get? v "temperature") =
        some (temperatureJson (getCpuTemperature env)) := rfl
    rw [hlook, hprobe]
    rfl
  · intro env₁ env₂ hb hl hs
    unfold getBatteryInfo
    rw [hb]
    cases h2 : env₂.termuxBattery with
    | some bd => rfl
    | none =>
      rw [tryLevelPaths_congr env₁.fs env₂.fs batteryPaths hl,
          tryStatusPaths_congr env₁.fs env₂.fs statusPaths hs]

/-- Witness for C2 (amended) at concrete environments: a bare host
(temperature `null`), a garbage thermal file (`NaN` probe value rendered
as `null` in the body), battery independence between two environments
agreeing on battery inputs, and completed assembly. -/
theorem c2_witness :
    getCpuTemperature envBare = none ∧
    (getCpuTemperature envThermalGarbage = some JsNum.nan ∧
     ((GET envThermalGarbage).body.get? "cpu").bind (fun v => JVal.get? v "temperature") =
       some JVal.jnull) ∧
    getBatteryInfo envBare = getBatteryInfo envThermalGarbage ∧
    (GET envThermalGarbage).status = 200 := by
  refine ⟨c2_amended_probe_failures_localised.1 envBare rfl rfl,
    c2_amended_probe_failures_localised.2.1 envThermalGarbage "garbage" rfl rfl,
    c2_amended_probe_failures_localised.2.2.1 envBare envThermalGarbage rfl ?_ ?_,
    (c2_amended_probe_failures_localised.2.2.2 envThermalGarbage).1⟩
  · intro p hp
    fin_cases hp <;> rfl
  · intro p hp
    fin_cases hp <;> rfl

/-- C4 counterexample: in the assembled snapshot the memory `total` field
is the formatted string `"2.00 GB"`, not a number — the emitted
`total`/`used`/`free` fields are human-readable strings, so the claim
that they are non-negative integers fails. -/
theorem c4_counterexample :
    ((GET envBare).body.get? "memory").bind (fun v => JVal.get? v "total") =
      some (JVal.jstr "2.00 GB") ∧
    ¬ ∃ q : ℚ, ((GET envBare).body.get? "memory").bind (fun v => JVal.get? v "total") =
        some (JVal.jnum q) := by
  have h : ((GET envBare).body.get? "memory").bind (fun v => JVal.get? v "total") =
      some (JVal.jstr (formatBytes ((envBare.totalmem : ℕ) : ℚ))) := rfl
  have he : ((envBare.totalmem : ℕ) : ℚ) = (2:ℚ)^31 := by norm_num [envBare]
  have hfmt : formatBytes ((envBare.totalmem : ℕ) : ℚ) = "2.00 GB" := by
    rw [he, formatBytes_gb ((2:ℚ)^31) (by norm_num)]
    have harg : ((2:ℚ)^31 / 2^30) = 2 := by norm_num
    rw [harg]
    simp only [toFixed2]
    rw [jsRound_eq_round]
    have h200 : ((2:ℚ) * 100) = ((200 : ℤ) : ℚ) := by norm_num
    rw [h200, round_intCast]
    decide
  constructor
  · rw [h, hfmt]
  · rintro ⟨q, hq⟩
    rw [h, hfmt] at hq
    exact absurd (Option.some.inj hq) (by intro heq; cases heq)

/-- C4 amended: the memory object's `total`, `used` and `free` fields are
human-readable strings produced by the byte formatter from the underlying
byte counts; the underlying counts satisfy `usedBytes = total − free`,
which is a non-negative integer whenever `free ≤ total` (as the OS
guarantees). -/
theorem c4_amended_memory_fields_formatted_strings (env : Env)
    (hfree : env.freemem ≤ env.totalmem) :
    (GET env).body.get? "memory" = some (JVal.jobj
      [("total", JVal.jstr (formatBytes ((env.totalmem : ℕ) : ℚ))),
       ("used", JVal.jstr (formatBytes (((env.totalmem : ℤ) - (env.freemem : ℤ) : ℤ) : ℚ))),
       ("free", JVal.jstr (formatBytes ((env.freemem : ℕ) : ℚ))),
       ("usagePercent", (memUsagePercentJs env.totalmem env.freemem).toJson)]) ∧
    0 ≤ (env.totalmem : ℤ) - (env.freemem : ℤ) := by
  refine ⟨rfl, ?_⟩
  have : (env.freemem : ℤ) ≤ (env.totalmem : ℤ) := by exact_mod_cast hfree
  omega

/-- Witness for C4 (amended) at the 2 GiB / 1 GiB host. -/
theorem c4_witness :
    (GET envBare).body.get? "memory" = some (JVal.jobj
      [("total", JVal.jstr (formatBytes ((envBare.totalmem : ℕ) : ℚ))),
       ("used", JVal.jstr (formatBytes (((envBare.totalmem : ℤ) - (envBare.freemem : ℤ) : ℤ) : ℚ))),
       ("free", JVal.jstr (formatBytes ((envBare.freemem : ℕ) : ℚ))),
       ("usagePercent", (memUsagePercentJs envBare.totalmem envBare.freemem).toJson)]) ∧
    0 ≤ (envBare.totalmem : ℤ) - (envBare.freemem : ℤ) :=
  c4_amended_memory_fields_formatted_strings envBare (by norm_num [envBare])
